import Mathlib

/-!
Shallow embedding of the availability-checking core of the dashboard
application (`src/dashboard/availability.py`, `src/dashboard/models.py`,
`src/dashboard/websocket.py`).

Conventions of the embedding:
* Python `Optional[bool]` for the tri-state `available` field becomes
  `Option Bool` (`none` = unknown).
* Timestamps (`datetime.utcnow()`) become a `Nat` supplied by the
  environment; only equality/propagation matters to the claims.
* Python floats are modelled as `ℚ`; the concrete values appearing in the
  claims (multiples of 1/10) are exactly representable as doubles and the
  float computations at those points agree with the rational ones.
* Python dicts (insertion ordered) become association lists with
  update-or-append semantics.
* Fallible Python code (a raised exception) becomes `Except String`.
* External collaborators (rate limiter, cache, provider connectors) are
  modelled as environments recording the answer each collaborator would
  give, and the embedding records which collaborators were actually
  consulted, so that "the invoker is never called" is statable.
-/

namespace Dashboard

/-- Embedding of `models.py` `ProviderResult`: outcome of one provider check.
The `metadata: Optional[Dict[str, Any]]` payload is untyped and unused by
every claim, so it is omitted; `confidence` keyword arguments passed at
construction sites in `availability.py` are ignored by pydantic because the
model declares no such field. -/
structure ProviderResult where
  provider : String
  name : String
  available : Option Bool := none
  error : Option String := none
  checked_at : Option Nat := none
deriving Repr, DecidableEq

/-- Embedding of `models.py` `CheckStatus` enumeration. The third variant is the
source's "partial" status (renamed `part` here because of a keyword
clash). -/
inductive CheckStatus where
  | pending
  | complete
  | part
  | failed
deriving Repr, DecidableEq

/-- Embedding of `models.py` `NameCheckSummary`. -/
structure NameCheckSummary where
  total_checked : Nat := 0
  available : Nat := 0
  unavailable : Nat := 0
  pending : Nat := 0
  overall_score : ℚ := 0
deriving Repr, DecidableEq

/-- The nested results mapping `Dict[str, Dict[str, ProviderResult]]`,
as an insertion-ordered association list (group ↦ provider ↦ result). -/
abbrev Results := List (String × List (String × ProviderResult))

/-- Embedding of `models.py` `NameCheck`. -/
structure NameCheck where
  id : String
  name : String
  status : CheckStatus
  results : Results
  summary : NameCheckSummary
  created_at : Nat
  expires_at : Nat
deriving Repr, DecidableEq

/-- One step of the counting loop of `calculate_summary`: the body of the
inner `for result in group_results.values()` loop, acting on the counter
tuple `(total_checked, available, unavailable, pending)`. -/
def summaryStep (acc : Nat × Nat × Nat × Nat) (result : ProviderResult) :
    Nat × Nat × Nat × Nat :=
  let (t, a, u, p) := acc
  match result.available with
  | none => (t + 1, a, u, p + 1)
  | some true => (t + 1, a + 1, u, p)
  | some false => (t + 1, a, u + 1, p)

/-- Embedding of `availability.py` `calculate_summary`: scans every `ProviderResult` in
the nested mapping, counting available / unavailable / pending, and derives
`overall_score = available / total_checked` (0.0 when nothing was checked). -/
def calculate_summary (results : Results) : NameCheckSummary :=
  let (t, a, u, p) :=
    results.foldl
      (fun acc groupEntry => groupEntry.2.foldl
        (fun acc' provEntry => summaryStep acc' provEntry.2) acc)
      ((0, 0, 0, 0) : Nat × Nat × Nat × Nat)
  let overall_score : ℚ := if t > 0 then (a : ℚ) / (t : ℚ) else 0
  { total_checked := t
    available := a
    unavailable := u
    pending := p
    overall_score := overall_score }

/-! Section: the per-provider task (`check_single_provider_wrapper`) -/

/-- Outcome of `asyncio.wait_for(provider_manager.check_availability(...),
timeout=provider_check_timeout)` as observed by the wrapper: either the
connector returned a `ProviderResult` within the per-call timeout, or the
per-call timeout fired (`asyncio.TimeoutError`), or the call raised some
other exception carrying message `msg`. -/
inductive InvokeOutcome where
  | ok (r : ProviderResult)
  | timeout
  | exn (msg : String)
deriving Repr, DecidableEq

/-- Environment of one per-provider task: the answers the external
collaborators (rate limiter, cache, provider connector) would give if
consulted, plus the clock. `cacheWriteExn = some msg` means
`cache_manager.set_availability` raises an exception with message `msg`;
`none` means the write succeeds. -/
structure ProviderEnv where
  rateLimitOk : Bool
  cached : Option ProviderResult
  invoke : InvokeOutcome
  cacheWriteExn : Option String := none
  now : Nat := 0
deriving Repr, DecidableEq

/-- What one per-provider task did: the `ProviderResult` it returned, and
which collaborators it actually consulted. The wrapper is a total function
into this record, reflecting that it catches every exception and always
returns a `ProviderResult`. -/
structure TaskTrace where
  result : ProviderResult
  cacheLookupCalled : Bool
  invokerCalled : Bool
  cacheWriteCalled : Bool
deriving Repr, DecidableEq

/-- Embedding of `availability.py` `check_single_provider_wrapper` (lines 60–107):
rate-limit gate, then cache lookup, then the invoker call under the
per-call timeout followed by the cache write, with `except
asyncio.TimeoutError` and `except Exception` handlers wrapped around the
invoke-then-write block. An exception raised by the cache write is caught
by the same `except Exception as e` handler as one raised by the
invocation. -/
def check_single_provider_wrapper (provName reqName : String)
    (env : ProviderEnv) : TaskTrace :=
  if !env.rateLimitOk then
    { result :=
        { provider := provName, name := reqName, available := none
          error := some "Rate limit exceeded", checked_at := some env.now }
      cacheLookupCalled := false, invokerCalled := false
      cacheWriteCalled := false }
  else
    match env.cached with
    | some cachedResult =>
      { result := cachedResult
        cacheLookupCalled := true, invokerCalled := false
        cacheWriteCalled := false }
    | none =>
      match env.invoke with
      | .ok freshResult =>
        match env.cacheWriteExn with
        | none =>
          { result := freshResult
            cacheLookupCalled := true, invokerCalled := true
            cacheWriteCalled := true }
        | some msg =>
          { result :=
              { provider := provName, name := reqName, available := none
                error := some msg, checked_at := some env.now }
            cacheLookupCalled := true, invokerCalled := true
            cacheWriteCalled := true }
      | .timeout =>
        { result :=
            { provider := provName, name := reqName, available := none
              error := some "Request timeout", checked_at := some env.now }
          cacheLookupCalled := true, invokerCalled := true
          cacheWriteCalled := false }
      | .exn msg =>
        { result :=
            { provider := provName, name := reqName, available := none
              error := some msg, checked_at := some env.now }
          cacheLookupCalled := true, invokerCalled := true
          cacheWriteCalled := false }

/-! Section: the fan-out pipeline (`check_name_availability`) -/

/-- The task list construction (lines 51–113): for each requested group, in
order, one `(group, provider)` pair per provider the manager resolves for
that group. This is the `task_metadata` list. -/
def taskMetadata (groups : List String)
    (providersInGroup : String → List String) : List (String × String) :=
  groups.flatMap (fun g => (providersInGroup g).map (fun p => (g, p)))

/-- One element of `results_list` after the gather/timeout step: either a
value returned by a task, or an `Exception` object. -/
inductive TaskCell where
  | res (r : ProviderResult)
  | exn (msg : String)
deriving Repr, DecidableEq

/-- Lines 135–144: `if isinstance(result, Exception)` — an exception cell
is converted to an error-shaped `ProviderResult`, a value cell is kept. -/
def cellToResult (provider reqName : String) (now : Nat) :
    TaskCell → ProviderResult
  | .res r => r
  | .exn msg =>
    { provider := provider, name := reqName, available := none
      error := some msg, checked_at := some now }

/-- Insertion into an inner (provider-keyed) Python dict:
`results[group][provider] = result` — overwrite if present, append
otherwise. -/
def insertInner (inner : List (String × ProviderResult)) (p : String)
    (r : ProviderResult) : List (String × ProviderResult) :=
  if inner.any (fun kv => kv.1 = p) then
    inner.map (fun kv => if kv.1 = p then (p, r) else kv)
  else
    inner ++ [(p, r)]

/-- Insertion into the outer (group-keyed) dict, initialising the group's
inner dict when absent (lines 131–146). -/
def insertResult (results : Results) (g p : String) (r : ProviderResult) :
    Results :=
  if results.any (fun kv => kv.1 = g) then
    results.map (fun kv => if kv.1 = g then (g, insertInner kv.2 p r) else kv)
  else
    results ++ [(g, [(p, r)])]

/-- The merge loop (lines 125–146): fold `zip(task_metadata, results_list)`
into the nested results dict, converting exception cells on the way. -/
def organizeResults (reqName : String) (now : Nat)
    (cells : List ((String × String) × TaskCell)) : Results :=
  cells.foldl
    (fun acc entry =>
      insertResult acc entry.1.1 entry.1.2
        (cellToResult entry.1.2 reqName now entry.2))
    []

/-- Lines 152–157: `all_complete` — every result in the nested dict has
`available is not None`. -/
def allComplete (results : Results) : Bool :=
  results.all (fun groupEntry =>
    groupEntry.2.all (fun provEntry => provEntry.2.available.isSome))

/-- The hard-coded message of line 123 (the overall timeout handler). -/
def overallTimeoutMsg : String :=
  "Request timeout - check took longer than 10 seconds"

/-- Environment of one whole `check_name_availability` request: the
requested groups, the manager's group resolution, the per-task environment
of each `(group, provider)` pair, and whether the overall
`asyncio.wait_for` around the gather raised `asyncio.TimeoutError`. -/
structure CheckEnv where
  reqName : String
  groups : List String
  providersInGroup : String → List String
  taskEnv : String → String → ProviderEnv
  overallTimedOut : Bool
  now : Nat := 0

/-- Embedding of `availability.py` `check_name_availability` (lines 24–160), with the
brandability-analysis block (lines 162–217) omitted: it is gated behind an
option and never touches `status`, `results` or `summary`. The gather with
`return_exceptions=True` yields each task's returned `ProviderResult` (the
wrapper itself never raises); if the overall timeout fires, line 123
replaces the whole list with `len(check_tasks)` copies of the timeout
exception. -/
def check_name_availability (env : CheckEnv) (checkId : String) : NameCheck :=
  let metadata := taskMetadata env.groups env.providersInGroup
  let results_list : List TaskCell :=
    if env.overallTimedOut then
      List.replicate metadata.length (TaskCell.exn overallTimeoutMsg)
    else
      metadata.map (fun gp =>
        TaskCell.res
          (check_single_provider_wrapper gp.2 env.reqName
            (env.taskEnv gp.1 gp.2)).result)
  let results := organizeResults env.reqName env.now (metadata.zip results_list)
  let status :=
    if allComplete results then CheckStatus.complete else CheckStatus.pending
  { id := checkId
    name := env.reqName
    status := status
    results := results
    summary := calculate_summary results
    created_at := env.now
    expires_at := env.now + 15 * 60 }

/-! Section: the live-session layer (`websocket.py` `ConnectionManager`) -/

/-- Generic Python-dict insertion on a string-keyed association list:
overwrite in place when the key is present, append otherwise. -/
def dictInsert {α : Type} (d : List (String × α)) (k : String) (v : α) :
    List (String × α) :=
  if d.any (fun kv => kv.1 = k) then
    d.map (fun kv => if kv.1 = k then (k, v) else kv)
  else
    d ++ [(k, v)]

/-- The per-provider record stored in `session["results"]` by
`update_check_progress` (lines 90–93): available flag and completion time. -/
structure SessionResultEntry where
  available : Option Bool
  checked_at : Option Nat
deriving Repr, DecidableEq

/-- One entry of `ConnectionManager.check_sessions` (lines 54–62). -/
structure CheckSession where
  session_id : String
  name : String
  providers : List String
  started_at : Nat
  total_checks : Nat
  completed_checks : Nat
  results : List (String × List (String × SessionResultEntry))
deriving Repr, DecidableEq

/-- The mutable state of a `ConnectionManager`: which clients have a live
websocket, and the per-client check sessions. -/
structure ManagerState where
  active_connections : List String
  check_sessions : List (String × CheckSession)
deriving Repr, DecidableEq

/-- The events a client can receive, by `type` field. Payload fields not
examined by any claim (the full results tree, summary and duration of
`session_complete`, the error payload) are reduced to the identifying
strings. -/
inductive WsEvent where
  | connected (client_id : String)
  | session_started (session_id name : String) (total_checks : Nat)
  | progress_update (session_id provider : String) (available : Option Bool)
      (completed total : Nat) (percentage : ℚ)
  | session_complete (session_id name : String)
  | errorEvent (session_id msg : String)
deriving Repr, DecidableEq

/-- Embedding of `send_personal_message` (lines 35–39): the event reaches the client only
if it is in `active_connections`; otherwise nothing is sent. -/
def send_personal_message (s : ManagerState) (e : WsEvent)
    (clientId : String) : List WsEvent :=
  if s.active_connections.contains clientId then [e] else []

/-- Embedding of `ConnectionManager.connect` (lines 19–26): register the websocket under
the client id, then send the `connected` event. -/
def connect (s : ManagerState) (clientId : String) :
    ManagerState × List WsEvent :=
  let s' : ManagerState :=
    { s with
      active_connections :=
        if s.active_connections.contains clientId then s.active_connections
        else s.active_connections ++ [clientId] }
  (s', send_personal_message s' (WsEvent.connected clientId) clientId)

/-- Embedding of `_calculate_total_checks` (lines 133–143): per-group estimate table
with default 5, summed over the requested groups. -/
def providerCountEstimate (p : String) : Nat :=
  if p = "domains" then 10
  else if p = "social" then 8
  else if p = "package_registries" then 5
  else if p = "app_stores" then 3
  else if p = "dev_platforms" then 5
  else 5

/-- Embedding of the `_calculate_total_checks` summation (renamed without the leading
underscore). -/
def calculate_total_checks (providers : List String) : Nat :=
  (providers.map providerCountEstimate).sum

/-- Embedding of `start_check_session` (lines 49–71): create the session record (keyed
by client id, total from the estimate table, zero completed, empty
results), then send `session_started`. The fresh uuid `session_id` is a
parameter. -/
def start_check_session (s : ManagerState) (clientId sessionId name : String)
    (providers : List String) (now : Nat) : ManagerState × List WsEvent :=
  let total_checks := calculate_total_checks providers
  let session : CheckSession :=
    { session_id := sessionId
      name := name
      providers := providers
      started_at := now
      total_checks := total_checks
      completed_checks := 0
      results := [] }
  let s' : ManagerState :=
    { s with check_sessions := dictInsert s.check_sessions clientId session }
  (s',
    send_personal_message s'
      (WsEvent.session_started sessionId name total_checks) clientId)

/-- Embedding of Python `round(x, 1)` on the rationals: round `10·x` to the nearest integer and
divide by 10. Python rounds ties to even on the float's decimal expansion;
this model rounds ties up — the two agree at every non-tie, and every
percentage appearing in the claims is a non-tie. -/
def round1 (q : ℚ) : ℚ := ((round (10 * q) : ℤ) : ℚ) / 10

/-- Embedding of `update_check_progress` (lines 73–112): no-op for a client with no
session; otherwise store the result under `(category, provider)`, increment
`completed_checks`, compute `completed / total * 100` — which, as Python
integer/true division, raises `ZeroDivisionError` when `total_checks` is
0 — and send `progress_update` with the percentage rounded to one decimal.
The division happens after the in-place mutation of the session; on the
raise the exception propagates and no event is sent. -/
def update_check_progress (s : ManagerState)
    (clientId category provName : String) (result : ProviderResult) :
    Except String (ManagerState × List WsEvent) :=
  match s.check_sessions.lookup clientId with
  | none => .ok (s, [])
  | some session =>
    let entry : SessionResultEntry :=
      { available := result.available, checked_at := result.checked_at }
    let newResults :=
      dictInsert session.results category
        (dictInsert
          ((session.results.lookup category).getD []) provName entry)
    let completed := session.completed_checks + 1
    let session' : CheckSession :=
      { session with results := newResults, completed_checks := completed }
    let s' : ManagerState :=
      { s with check_sessions := dictInsert s.check_sessions clientId session' }
    if session.total_checks = 0 then
      .error "ZeroDivisionError: division by zero"
    else
      let percentage : ℚ :=
        round1 ((completed : ℚ) / (session.total_checks : ℚ) * 100)
      .ok (s',
        send_personal_message s'
          (WsEvent.progress_update session.session_id
            (category ++ "." ++ provName) result.available
            completed session.total_checks percentage)
          clientId)

/-- Embedding of `complete_check_session` (lines 114–131): no-op without a session;
otherwise send `session_complete` and delete the session. -/
def complete_check_session (s : ManagerState) (clientId : String) :
    ManagerState × List WsEvent :=
  match s.check_sessions.lookup clientId with
  | none => (s, [])
  | some session =>
    ({ s with
        check_sessions :=
          s.check_sessions.filter (fun kv => kv.1 ≠ clientId) },
      send_personal_message s
        (WsEvent.session_complete session.session_id session.name) clientId)

/-- The streaming flow of `RealtimeChecker.check_with_updates` behind the
websocket endpoint, for a check that resolves to exactly two provider
tasks: `connect`, `start_check_session`, one `update_check_progress` per
settled task (two of them, in settlement order, with arbitrary
category/provider/result), then `complete_check_session`. Produces the
full event sequence the client receives. -/
def liveSessionTwoProviders (clientId sessionId name : String)
    (providers : List String) (now : Nat)
    (u1 u2 : String × String × ProviderResult) :
    Except String (List WsEvent) :=
  let s0 : ManagerState := { active_connections := [], check_sessions := [] }
  let (s1, e1) := connect s0 clientId
  let (s2, e2) := start_check_session s1 clientId sessionId name providers now
  match update_check_progress s2 clientId u1.1 u1.2.1 u1.2.2 with
  | .error e => .error e
  | .ok (s3, e3) =>
    match update_check_progress s3 clientId u2.1 u2.2.1 u2.2.2 with
    | .error e => .error e
    | .ok (s4, e4) =>
      let (_, e5) := complete_check_session s4 clientId
      .ok (e1 ++ e2 ++ e3 ++ e4 ++ e5)

/-! Section: derived predicates and concrete instances used by the
verification. -/

/-- Total number of `ProviderResult` entries in the nested results
mapping. -/
def countEntries (results : Results) : Nat :=
  (results.map (fun kv => kv.2.length)).sum

/-- Whether the nested mapping already holds an entry for `(g, p)`. -/
def hasEntry (results : Results) (g p : String) : Bool :=
  results.any (fun kv => kv.1 = g && kv.2.any (fun kv' => kv'.1 = p))

/-- Every `ProviderResult` stored in the nested mapping satisfies `P`. -/
def resultsAll (P : ProviderResult → Prop) (results : Results) : Prop :=
  ∀ ge ∈ results, ∀ pe ∈ ge.2, P pe.2

/-- The invariant of the counting loop of `calculate_summary`: the total
equals the sum of the three classes and dominates the available count. -/
def summaryAccInv (acc : Nat × Nat × Nat × Nat) : Prop :=
  acc.1 = acc.2.1 + acc.2.2.1 + acc.2.2.2 ∧ acc.2.1 ≤ acc.1

/-- A settled definite answer: ".com" answered unavailable. -/
def rCom : ProviderResult :=
  { provider := ".com", name := "acme", available := some false
    checked_at := some 1 }

/-- A per-call-timeout outcome for ".io". -/
def rIo : ProviderResult :=
  { provider := ".io", name := "acme", available := none
    error := some "Request timeout", checked_at := some 2 }

/-- The results mapping of the spec's §8 example scenario: ".com"
unavailable, ".io" timed out. -/
def exampleResults : Results := [("domains", [(".com", rCom), (".io", rIo)])]

/-- A request environment with two `domains` providers in which ".com" is
answered immediately from the cache (a task that settles at once, well
before any overall timeout could fire) with a definite `available = true`,
".io" hangs past its per-call timeout, and the overall batch timeout
fires. -/
def envTimeout : CheckEnv :=
  { reqName := "acme"
    groups := ["domains"]
    providersInGroup := fun g => if g = "domains" then [".com", ".io"] else []
    taskEnv := fun _ p =>
      if p = ".com" then
        { rateLimitOk := true
          cached := some
            { provider := ".com", name := "acme", available := some true
              checked_at := some 1 }
          invoke := .timeout }
      else
        { rateLimitOk := true, cached := none, invoke := .timeout }
    overallTimedOut := true }

/-- The same two-provider request without the overall timeout, but with the
".io" task rejected by the rate limiter, so that not every result settles
with a definite answer. -/
def envRateLimited : CheckEnv :=
  { reqName := "acme"
    groups := ["domains"]
    providersInGroup := fun g => if g = "domains" then [".com", ".io"] else []
    taskEnv := fun _ p =>
      if p = ".com" then
        { rateLimitOk := true
          cached := some
            { provider := ".com", name := "acme", available := some true
              checked_at := some 1 }
          invoke := .timeout }
      else
        { rateLimitOk := false, cached := none, invoke := .timeout }
    overallTimedOut := false }

/-- A per-provider environment in which the rate limiter admits the call,
the cache misses, the connector returns a fresh definite result, and the
subsequent cache write raises. -/
def envCacheWriteFail : ProviderEnv :=
  { rateLimitOk := true
    cached := none
    invoke := .ok
      { provider := "github", name := "acme", available := some true
        checked_at := some 3 }
    cacheWriteExn := some "redis connection refused"
    now := 4 }

/-- The manager state right after `connect` + `start_check_session` with an
empty providers list: the setting of claim C10. -/
def emptyProvidersState : ManagerState :=
  (start_check_session
    (connect { active_connections := [], check_sessions := [] } "client-1").1
    "client-1" "sess-1" "acme" [] 0).1

/-! Section: helper lemmas -/

/-- A fold preserves any invariant its step function preserves. -/
lemma foldl_preserves {α β : Type} (f : α → β → α) (P : α → Prop)
    (hf : ∀ a b, P a → P (f a b)) :
    ∀ (l : List β) (a : α), P a → P (l.foldl f a) := by
  intro l
  induction l with
  | nil => intro a ha; simpa using ha
  | cons b bs ih =>
    intro a ha
    simpa using ih (f a b) (hf a b ha)

lemma summaryStep_inv (acc : Nat × Nat × Nat × Nat) (r : ProviderResult)
    (h : summaryAccInv acc) : summaryAccInv (summaryStep acc r) := by
  obtain ⟨t, a, u, p⟩ := acc
  obtain ⟨h1, h2⟩ := h
  simp only [summaryAccInv] at *
  rcases hr : r.available with _ | b
  · simp [summaryStep, hr]; omega
  · rcases b <;> simp [summaryStep, hr] <;> omega

lemma calculate_summary_counts (results : Results) :
    summaryAccInv
      (results.foldl
        (fun acc groupEntry => groupEntry.2.foldl
          (fun acc' provEntry => summaryStep acc' provEntry.2) acc)
        ((0, 0, 0, 0) : Nat × Nat × Nat × Nat)) := by
  apply foldl_preserves
  · intro a b ha
    apply foldl_preserves
    · intro a' b' ha'
      exact summaryStep_inv a' b'.2 ha'
    · exact ha
  · simp [summaryAccInv]

/-- C3. For every nested results mapping, `calculate_summary` yields a
`NameCheckSummary` with `total_checked = available + unavailable + pending`,
`0 ≤ overall_score ≤ 1`, `overall_score = available / total_checked` when
`total_checked > 0`, and `overall_score = 0` when `total_checked = 0`. -/
theorem calculate_summary_invariants (results : Results) :
    (calculate_summary results).total_checked =
        (calculate_summary results).available +
          (calculate_summary results).unavailable +
          (calculate_summary results).pending ∧
    0 ≤ (calculate_summary results).overall_score ∧
    (calculate_summary results).overall_score ≤ 1 ∧
    ((calculate_summary results).total_checked > 0 →
      (calculate_summary results).overall_score =
        ((calculate_summary results).available : ℚ) /
          ((calculate_summary results).total_checked : ℚ)) ∧
    ((calculate_summary results).total_checked = 0 →
      (calculate_summary results).overall_score = 0) := by
  have hinv := calculate_summary_counts results
  unfold calculate_summary
  set acc := results.foldl
      (fun acc groupEntry => groupEntry.2.foldl
        (fun acc' provEntry => summaryStep acc' provEntry.2) acc)
      ((0, 0, 0, 0) : Nat × Nat × Nat × Nat) with hacc
  obtain ⟨t, a, u, p⟩ := acc
  obtain ⟨h1, h2⟩ := hinv
  simp only at h1 h2
  by_cases ht : t > 0
  · have htQ : (0 : ℚ) < (t : ℚ) := by exact_mod_cast ht
    have haQ : (a : ℚ) ≤ (t : ℚ) := by exact_mod_cast h2
    refine ⟨by simpa using h1, ?_, ?_, ?_, ?_⟩
    · simp only [ht, if_true]
      positivity
    · simp only [ht, if_true]
      rw [div_le_one htQ]
      exact haQ
    · intro _
      simp [ht]
    · intro h0
      simp at h0
      omega
  · have ht0 : t = 0 := by omega
    subst ht0
    refine ⟨by simpa using h1, by simp, by simp, ?_, by simp⟩
    intro h
    simp at h

/-- Witness for C3 at the spec's own §8 example shape: one unavailable and
one pending result. -/
theorem calculate_summary_invariants_witness :
    (calculate_summary exampleResults).total_checked =
        (calculate_summary exampleResults).available +
          (calculate_summary exampleResults).unavailable +
          (calculate_summary exampleResults).pending ∧
    0 ≤ (calculate_summary exampleResults).overall_score ∧
    (calculate_summary exampleResults).overall_score ≤ 1 ∧
    ((calculate_summary exampleResults).total_checked > 0 →
      (calculate_summary exampleResults).overall_score =
        ((calculate_summary exampleResults).available : ℚ) /
          ((calculate_summary exampleResults).total_checked : ℚ)) ∧
    ((calculate_summary exampleResults).total_checked = 0 →
      (calculate_summary exampleResults).overall_score = 0) :=
  calculate_summary_invariants exampleResults

/-- C6. A task whose rate-limit gate answers false yields
`available = unknown` with error "Rate limit exceeded", and consults
neither the cache nor the invoker. -/
theorem rate_limited_task_shape (provName reqName : String)
    (env : ProviderEnv) (h : env.rateLimitOk = false) :
    check_single_provider_wrapper provName reqName env =
      { result :=
          { provider := provName, name := reqName, available := none
            error := some "Rate limit exceeded", checked_at := some env.now }
        cacheLookupCalled := false, invokerCalled := false
        cacheWriteCalled := false } := by
  simp [check_single_provider_wrapper, h]

/-- Witness for C6 at a concrete environment. -/
theorem rate_limited_task_shape_witness :
    check_single_provider_wrapper "github" "acme"
        { rateLimitOk := false, cached := none, invoke := .timeout
          now := 7 } =
      { result :=
          { provider := "github", name := "acme", available := none
            error := some "Rate limit exceeded", checked_at := some 7 }
        cacheLookupCalled := false, invokerCalled := false
        cacheWriteCalled := false } :=
  rate_limited_task_shape "github" "acme"
    { rateLimitOk := false, cached := none, invoke := .timeout, now := 7 } rfl

/-- C8. With the rate limit passed and a cache entry present, the task
returns the cached `ProviderResult` unchanged and never calls the
invoker. -/
theorem cache_hit_short_circuits (provName reqName : String)
    (env : ProviderEnv) (r : ProviderResult)
    (h1 : env.rateLimitOk = true) (h2 : env.cached = some r) :
    check_single_provider_wrapper provName reqName env =
      { result := r, cacheLookupCalled := true, invokerCalled := false
        cacheWriteCalled := false } := by
  simp [check_single_provider_wrapper, h1, h2]

/-- Witness for C8 at a concrete cached result. -/
theorem cache_hit_short_circuits_witness :
    check_single_provider_wrapper ".com" "acme"
        { rateLimitOk := true, cached := some rCom, invoke := .timeout
          now := 9 } =
      { result := rCom, cacheLookupCalled := true, invokerCalled := false
        cacheWriteCalled := false } :=
  cache_hit_short_circuits ".com" "acme"
    { rateLimitOk := true, cached := some rCom, invoke := .timeout, now := 9 }
    rCom rfl rfl

/-- C7. On a cache miss, a per-call timeout of the invocation yields
`available = unknown` with error "Request timeout", and any other exception
of the invocation yields `available = unknown` with the exception's message;
in both cases the wrapper still returns a `ProviderResult` (it is a total
function into `TaskTrace` — no exception escapes a task, so no other task's
result is lost; claim C4's count theorem covers the batch side). -/
theorem invocation_failure_contained (provName reqName msg : String)
    (env : ProviderEnv) (h1 : env.rateLimitOk = true)
    (h2 : env.cached = none) :
    (env.invoke = InvokeOutcome.timeout →
      check_single_provider_wrapper provName reqName env =
        { result :=
            { provider := provName, name := reqName, available := none
              error := some "Request timeout", checked_at := some env.now }
          cacheLookupCalled := true, invokerCalled := true
          cacheWriteCalled := false }) ∧
    (env.invoke = InvokeOutcome.exn msg →
      check_single_provider_wrapper provName reqName env =
        { result :=
            { provider := provName, name := reqName, available := none
              error := some msg, checked_at := some env.now }
          cacheLookupCalled := true, invokerCalled := true
          cacheWriteCalled := false }) := by
  constructor <;> intro h3 <;> simp [check_single_provider_wrapper, h1, h2, h3]

/-- Witness for C7 at a concrete environment whose invocation hits the
per-call timeout. -/
theorem invocation_failure_contained_witness :
    ({ rateLimitOk := true, cached := none, invoke := .timeout
       now := 11 : ProviderEnv }.invoke = InvokeOutcome.timeout →
      check_single_provider_wrapper "npm" "acme"
          { rateLimitOk := true, cached := none, invoke := .timeout
            now := 11 } =
        { result :=
            { provider := "npm", name := "acme", available := none
              error := some "Request timeout", checked_at := some 11 }
          cacheLookupCalled := true, invokerCalled := true
          cacheWriteCalled := false }) ∧
    ({ rateLimitOk := true, cached := none, invoke := .timeout
       now := 11 : ProviderEnv }.invoke = InvokeOutcome.exn "boom" →
      check_single_provider_wrapper "npm" "acme"
          { rateLimitOk := true, cached := none, invoke := .timeout
            now := 11 } =
        { result :=
            { provider := "npm", name := "acme", available := none
              error := some "boom", checked_at := some 11 }
          cacheLookupCalled := true, invokerCalled := true
          cacheWriteCalled := false }) :=
  invocation_failure_contained "npm" "acme" "boom"
    { rateLimitOk := true, cached := none, invoke := .timeout, now := 11 }
    rfl rfl

/-- Counterexample to C5 as stated: with the rate limit passed, a cache
miss, a fresh definite result from the invoker, and a cache write that
raises, the task does NOT yield the fresh `ProviderResult` — it yields an
error-shaped one carrying the cache exception's message, because
`set_availability` sits inside the same `try` block as the invocation and
its exception is caught by the blanket `except Exception` handler. -/
theorem cache_write_failure_counterexample :
    (check_single_provider_wrapper "github" "acme" envCacheWriteFail).result ≠
      { provider := "github", name := "acme", available := some true
        checked_at := some 3 } ∧
    (check_single_provider_wrapper "github" "acme" envCacheWriteFail).result =
      { provider := "github", name := "acme", available := none
        error := some "redis connection refused", checked_at := some 4 } := by
  decide

/-- C5 amended: a cache-write failure after a fresh result never raises out
of the task (the wrapper still returns a `ProviderResult`), but it replaces
the fresh result with an error-shaped one — `available = unknown` and the
cache exception's message as `error`. -/
theorem cache_write_failure_amended (provName reqName msg : String)
    (env : ProviderEnv) (r : ProviderResult)
    (h1 : env.rateLimitOk = true) (h2 : env.cached = none)
    (h3 : env.invoke = InvokeOutcome.ok r)
    (h4 : env.cacheWriteExn = some msg) :
    check_single_provider_wrapper provName reqName env =
      { result :=
          { provider := provName, name := reqName, available := none
            error := some msg, checked_at := some env.now }
        cacheLookupCalled := true, invokerCalled := true
        cacheWriteCalled := true } := by
  simp [check_single_provider_wrapper, h1, h2, h3, h4]

/-- Witness for the amended C5 at the concrete failing environment. -/
theorem cache_write_failure_amended_witness :
    check_single_provider_wrapper "github" "acme" envCacheWriteFail =
      { result :=
          { provider := "github", name := "acme", available := none
            error := some "redis connection refused"
            checked_at := some envCacheWriteFail.now }
        cacheLookupCalled := true, invokerCalled := true
        cacheWriteCalled := true } :=
  cache_write_failure_amended "github" "acme" "redis connection refused"
    envCacheWriteFail
    { provider := "github", name := "acme", available := some true
      checked_at := some 3 }
    rfl rfl rfl rfl

/-- The status computation of lines 37–45 and 152–160, read off the
definition: initialised to `pending` and upgraded to `complete` exactly when
`all_complete` holds. -/
lemma check_status_def (env : CheckEnv) (checkId : String) :
    (check_name_availability env checkId).status =
      if allComplete (check_name_availability env checkId).results then
        CheckStatus.complete
      else CheckStatus.pending := rfl

/-- Counterexample to C2 as stated: a batch in which one task is
rate-limited (so not every result has a definite answer) ends with status
`pending`, not `partial` — the handler never assigns
`CheckStatus.PARTIAL`. -/
theorem status_not_partial_counterexample :
    allComplete (check_name_availability envRateLimited "check-1").results =
      false ∧
    (check_name_availability envRateLimited "check-1").status =
      CheckStatus.pending ∧
    (check_name_availability envRateLimited "check-1").status ≠
      CheckStatus.part := by
  decide

/-- C2 amended: the returned `NameCheck.status` is `complete` exactly when
every `ProviderResult` in the batch settled with a definite answer
(`available` a boolean); otherwise it is left at `pending` — the `partial`
status is never used. -/
theorem status_complete_iff_all_settled (env : CheckEnv) (checkId : String) :
    ((check_name_availability env checkId).status = CheckStatus.complete ↔
      allComplete (check_name_availability env checkId).results = true) ∧
    (allComplete (check_name_availability env checkId).results = false →
      (check_name_availability env checkId).status = CheckStatus.pending) ∧
    (check_name_availability env checkId).status ≠ CheckStatus.part := by
  rw [check_status_def]
  by_cases h : allComplete (check_name_availability env checkId).results <;>
    simp [h]

/-- A fold preserves an invariant when its step preserves it for the list's
own elements. -/
lemma foldl_preserves_mem {α β : Type} (f : α → β → α) (P : α → Prop) :
    ∀ (l : List β) (a : α),
      (∀ b ∈ l, ∀ a', P a' → P (f a' b)) → P a → P (l.foldl f a) := by
  intro l
  induction l with
  | nil => intro a _ ha; simpa using ha
  | cons b bs ih =>
    intro a hstep ha
    simp only [List.foldl_cons]
    exact ih (f a b) (fun b' hb' => hstep b' (List.mem_cons_of_mem b hb'))
      (hstep b (List.mem_cons_self b bs) a ha)

lemma insertInner_all (P : ProviderResult → Prop)
    (inner : List (String × ProviderResult)) (p : String) (r : ProviderResult)
    (hi : ∀ pe ∈ inner, P pe.2) (hr : P r) :
    ∀ pe ∈ insertInner inner p r, P pe.2 := by
  intro pe hpe
  unfold insertInner at hpe
  by_cases hc : inner.any (fun kv => kv.1 = p)
  · simp only [hc, if_true, List.mem_map] at hpe
    obtain ⟨kv, hkv, heq⟩ := hpe
    by_cases hk : kv.1 = p
    · simp only [hk, if_true] at heq
      rw [← heq]
      exact hr
    · simp only [hk, if_false] at heq
      rw [← heq]
      exact hi kv hkv
  · rw [if_neg hc] at hpe
    rcases List.mem_append.mp hpe with h | h
    · exact hi pe h
    · rw [List.mem_singleton.mp h]
      exact hr

lemma insertResult_all (P : ProviderResult → Prop) (res : Results)
    (g p : String) (r : ProviderResult)
    (hres : resultsAll P res) (hr : P r) :
    resultsAll P (insertResult res g p r) := by
  intro ge hge pe hpe
  unfold insertResult at hge
  by_cases hc : res.any (fun kv => kv.1 = g)
  · simp only [hc, if_true, List.mem_map] at hge
    obtain ⟨kv, hkv, heq⟩ := hge
    by_cases hk : kv.1 = g
    · simp only [hk, if_true] at heq
      rw [← heq] at hpe
      exact insertInner_all P kv.2 p r (hres kv hkv) hr pe hpe
    · simp only [hk, if_false] at heq
      rw [← heq] at hpe
      exact hres kv hkv pe hpe
  · rw [if_neg hc] at hge
    rcases List.mem_append.mp hge with h | h
    · exact hres ge h pe hpe
    · rw [List.mem_singleton.mp h] at hpe
      simp only [List.mem_singleton] at hpe
      rw [hpe]
      exact hr

lemma organizeResults_all (P : ProviderResult → Prop) (reqName : String)
    (now : Nat) (cells : List ((String × String) × TaskCell))
    (hP : ∀ c ∈ cells, P (cellToResult c.1.2 reqName now c.2)) :
    resultsAll P (organizeResults reqName now cells) := by
  unfold organizeResults
  apply foldl_preserves_mem _ (resultsAll P) cells []
  · intro c hc acc hacc
    exact insertResult_all P acc c.1.1 c.1.2 _ hacc (hP c hc)
  · intro ge hge
    simp at hge

/-- Counterexample to C1 as stated: in `envTimeout` the ".com" task settles
immediately from the cache with the definite answer `available = true` (its
outcome is independent of any waiting — it involves no invoker call), yet
when the overall timeout fires the returned `NameCheck` shows ".com" as
`available = unknown` with the batch-timeout error: the settled outcome is
erased, because line 123 rebuilds the whole `results_list` as timeout
exceptions instead of keeping the already-settled entries. -/
theorem overall_timeout_counterexample :
    (check_single_provider_wrapper ".com" "acme"
        (envTimeout.taskEnv "domains" ".com")).result.available = some true ∧
    (((check_name_availability envTimeout "check-2").results.lookup
        "domains").getD []).lookup ".com" =
      some
        { provider := ".com", name := "acme", available := none
          error := some overallTimeoutMsg, checked_at := some 0 } := by
  decide

/-- C1 amended: if the overall batch timeout fires, then EVERY task of the
batch — settled or not — yields `ProviderResult(available = unknown)` with
the fixed error "Request timeout - check took longer than 10 seconds"; a
partial timeout erases completed work (the outcome of the request does not
depend on the per-task results at all). -/
theorem overall_timeout_marks_every_task (env : CheckEnv) (checkId : String)
    (ht : env.overallTimedOut = true) :
    resultsAll
      (fun r => r.available = none ∧ r.error = some overallTimeoutMsg)
      (check_name_availability env checkId).results := by
  simp only [check_name_availability, ht, if_true]
  apply organizeResults_all
  intro c hc
  obtain ⟨gp, cell⟩ := c
  have hmem := List.of_mem_zip hc
  have hcell : cell = TaskCell.exn overallTimeoutMsg :=
    List.eq_of_mem_replicate hmem.2
  rw [hcell]
  simp [cellToResult]

/-- Witness for the amended C1 at the concrete two-provider environment
with the overall timeout fired. -/
theorem overall_timeout_marks_every_task_witness :
    resultsAll
      (fun r => r.available = none ∧ r.error = some overallTimeoutMsg)
      (check_name_availability envTimeout "check-3").results :=
  overall_timeout_marks_every_task envTimeout "check-3" rfl

/-- Every group contributes at least 3 to the estimate (the table's values
are 10, 8, 5, 3, 5 and the default is 5). -/
lemma providerCountEstimate_ge_three (p : String) :
    3 ≤ providerCountEstimate p := by
  unfold providerCountEstimate
  split_ifs <;> omega

/-- The estimated total of a session is never 2: it is 0 for no groups and
at least 3 otherwise. -/
lemma calculate_total_checks_ne_two (ps : List String) :
    calculate_total_checks ps ≠ 2 := by
  cases ps with
  | nil => simp [calculate_total_checks]
  | cons p ps' =>
    have h3 := providerCountEstimate_ge_three p
    simp only [calculate_total_checks, List.map_cons, List.sum_cons]
    omega

/-- Counterexample to C9 as stated: a live check over `["domains"]` that
resolves to exactly two provider tasks produces `session_started` with
`total_checks = 10` (the group-estimate table, not the resolved task count)
and progress percentages 10.0 then 20.0 — not `total_checks = 2` with 50.0
then 100.0 as the claim requires. -/
theorem two_provider_session_counterexample :
    liveSessionTwoProviders "client-2" "sess-2" "acme" ["domains"] 0
        ("domains", ".com", rCom) ("domains", ".io", rIo) =
      Except.ok
        [WsEvent.connected "client-2",
         WsEvent.session_started "sess-2" "acme" 10,
         WsEvent.progress_update "sess-2" "domains..com" (some false) 1 10 10,
         WsEvent.progress_update "sess-2" "domains..io" none 2 10 20,
         WsEvent.session_complete "sess-2" "acme"] ∧
    liveSessionTwoProviders "client-2" "sess-2" "acme" ["domains"] 0
        ("domains", ".com", rCom) ("domains", ".io", rIo) ≠
      Except.ok
        [WsEvent.connected "client-2",
         WsEvent.session_started "sess-2" "acme" 2,
         WsEvent.progress_update "sess-2" "domains..com" (some false) 1 2 50,
         WsEvent.progress_update "sess-2" "domains..io" none 2 2 100,
         WsEvent.session_complete "sess-2" "acme"] := by
  have h1 :
      liveSessionTwoProviders "client-2" "sess-2" "acme" ["domains"] 0
          ("domains", ".com", rCom) ("domains", ".io", rIo) =
        Except.ok
          [WsEvent.connected "client-2",
           WsEvent.session_started "sess-2" "acme" 10,
           WsEvent.progress_update "sess-2" "domains..com" (some false) 1 10
             10,
           WsEvent.progress_update "sess-2" "domains..io" none 2 10 20,
           WsEvent.session_complete "sess-2" "acme"] := by
    simp [liveSessionTwoProviders, connect, start_check_session,
      update_check_progress, complete_check_session, send_personal_message,
      dictInsert, calculate_total_checks, providerCountEstimate, rCom, rIo,
      List.lookup, round1]
    norm_num
  refine ⟨h1, ?_⟩
  rw [h1]
  simp

/-- C9 amended: for a live session whose check resolves to exactly two
provider tasks, the client receives exactly `connected`, `session_started`,
two `progress_update`s and `session_complete`, in that order and regardless
of which provider settles first — but `session_started` carries
`total_checks` from the per-group estimate table (sum of 10/8/5/3/5 per
requested group, default 5), never the resolved task count, and the two
percentages are `round(100·1/total, 1)` and `round(100·2/total, 1)`; a
total of 2 (and hence the pair 50.0, 100.0) is impossible, since each
requested group contributes at least 3. -/
theorem two_provider_session_events (clientId sessionId name : String)
    (ps : List String) (now : Nat) (c1 p1 c2 p2 : String)
    (r1 r2 : ProviderResult)
    (h : calculate_total_checks ps ≠ 0) :
    calculate_total_checks ps ≠ 2 ∧
    liveSessionTwoProviders clientId sessionId name ps now
        (c1, p1, r1) (c2, p2, r2) =
      Except.ok
        [WsEvent.connected clientId,
         WsEvent.session_started sessionId name (calculate_total_checks ps),
         WsEvent.progress_update sessionId (c1 ++ "." ++ p1) r1.available 1
           (calculate_total_checks ps)
           (round1 (1 / (calculate_total_checks ps : ℚ) * 100)),
         WsEvent.progress_update sessionId (c2 ++ "." ++ p2) r2.available 2
           (calculate_total_checks ps)
           (round1 (2 / (calculate_total_checks ps : ℚ) * 100)),
         WsEvent.session_complete sessionId name] := by
  refine ⟨calculate_total_checks_ne_two ps, ?_⟩
  simp [liveSessionTwoProviders, connect, start_check_session,
    update_check_progress, complete_check_session, send_personal_message,
    dictInsert, List.lookup, h]

/-- Witness for the amended C9: a concrete two-task session over
`["app_stores"]` (estimated total 3). -/
theorem two_provider_session_events_witness :
    calculate_total_checks ["app_stores"] ≠ 2 ∧
    liveSessionTwoProviders "client-3" "sess-3" "acme" ["app_stores"] 0
        ("app_stores", "apple", rCom) ("app_stores", "google", rIo) =
      Except.ok
        [WsEvent.connected "client-3",
         WsEvent.session_started "sess-3" "acme"
           (calculate_total_checks ["app_stores"]),
         WsEvent.progress_update "sess-3" ("app_stores" ++ "." ++ "apple")
           rCom.available 1 (calculate_total_checks ["app_stores"])
           (round1 (1 / (calculate_total_checks ["app_stores"] : ℚ) * 100)),
         WsEvent.progress_update "sess-3" ("app_stores" ++ "." ++ "google")
           rIo.available 2 (calculate_total_checks ["app_stores"])
           (round1 (2 / (calculate_total_checks ["app_stores"] : ℚ) * 100)),
         WsEvent.session_complete "sess-3" "acme"] :=
  two_provider_session_events "client-3" "sess-3" "acme" ["app_stores"] 0
    "app_stores" "apple" "app_stores" "google" rCom rIo (by decide)

/-- C10. Starting a session with an empty providers list records
`total_checks = 0`, and the first subsequent `update_check_progress` for
that client raises `ZeroDivisionError` while computing the progress
percentage instead of sending a `progress_update` event. -/
theorem empty_providers_division_by_zero :
    (emptyProvidersState.check_sessions.lookup "client-1").map
        CheckSession.total_checks = some 0 ∧
    update_check_progress emptyProvidersState "client-1" "domains" ".com"
        rCom =
      Except.error "ZeroDivisionError: division by zero" :=
  ⟨rfl, rfl⟩

/-! Section: counting lemmas for claim C4 — the merge loop stores exactly
one entry per metadata pair when the pairs are distinct. -/


lemma insertInner_length (inner : List (String × ProviderResult)) (p : String)
    (r : ProviderResult) :
    (insertInner inner p r).length =
      if inner.any (fun kv => kv.1 = p) then inner.length
      else inner.length + 1 := by
  unfold insertInner
  by_cases h : inner.any (fun kv => kv.1 = p) <;> simp [h]

lemma insertResult_cons_ne (g' : String)
    (inner : List (String × ProviderResult)) (rest : Results)
    (g p : String) (r : ProviderResult) (hg : g' ≠ g) :
    insertResult ((g', inner) :: rest) g p r =
      (g', inner) :: insertResult rest g p r := by
  unfold insertResult
  by_cases h : rest.any (fun kv => kv.1 = g) <;>
    simp [List.any_cons, hg, h]

lemma map_keep_of_no_key (rest : Results) (g p : String) (r : ProviderResult)
    (h : ∀ kv ∈ rest, kv.1 ≠ g) :
    rest.map (fun kv => if kv.1 = g then (g, insertInner kv.2 p r) else kv) =
      rest := by
  induction rest with
  | nil => rfl
  | cons head tail ih =>
    rw [List.map_cons]
    rw [if_neg (h head (List.mem_cons_self head tail))]
    rw [ih (fun kv hkv => h kv (List.mem_cons_of_mem head hkv))]

lemma insertResult_cons_eq (inner : List (String × ProviderResult))
    (rest : Results) (g p : String) (r : ProviderResult)
    (hrest : ∀ kv ∈ rest, kv.1 ≠ g) :
    insertResult ((g, inner) :: rest) g p r =
      (g, insertInner inner p r) :: rest := by
  unfold insertResult
  have hany : ((g, inner) :: rest).any (fun kv => kv.1 = g) = true := by
    simp [List.any_cons]
  rw [if_pos hany, List.map_cons, if_pos rfl]
  rw [map_keep_of_no_key rest g p r hrest]

lemma hasEntry_false_of_no_key (res : Results) (g p : String)
    (h : ∀ kv ∈ res, kv.1 ≠ g) : hasEntry res g p = false := by
  rw [hasEntry, List.any_eq_false]
  intro kv hkv
  simp [h kv hkv]

lemma countEntries_cons (g : String)
    (inner : List (String × ProviderResult)) (rest : Results) :
    countEntries ((g, inner) :: rest) = inner.length + countEntries rest := by
  simp [countEntries]

lemma hasEntry_cons (g' : String) (inner : List (String × ProviderResult))
    (rest : Results) (g p : String) :
    hasEntry ((g', inner) :: rest) g p =
      ((decide (g' = g) && inner.any (fun kv => kv.1 = p)) ||
        hasEntry rest g p) := rfl

lemma countEntries_insertResult (res : Results) (g p : String)
    (r : ProviderResult) (hnd : (res.map Prod.fst).Nodup) :
    countEntries (insertResult res g p r) =
      countEntries res + (if hasEntry res g p then 0 else 1) := by
  induction res with
  | nil => simp [insertResult, countEntries, hasEntry]
  | cons head rest ih =>
    obtain ⟨g', inner⟩ := head
    rw [List.map_cons] at hnd
    have hnd' := List.nodup_cons.mp hnd
    by_cases hg : g' = g
    · subst hg
      have hrest : ∀ kv ∈ rest, kv.1 ≠ g' := by
        intro kv hkv heq
        have hm : kv.1 ∈ rest.map Prod.fst := List.mem_map_of_mem Prod.fst hkv
        rw [heq] at hm
        exact hnd'.1 hm
      rw [insertResult_cons_eq inner rest g' p r hrest]
      rw [countEntries_cons, countEntries_cons, insertInner_length]
      have hre : hasEntry rest g' p = false :=
        hasEntry_false_of_no_key rest g' p hrest
      rw [hasEntry_cons, hre, Bool.or_false]
      by_cases hp : inner.any (fun kv => kv.1 = p)
      · simp [hp]
      · simp [hp]
        omega
    · rw [insertResult_cons_ne g' inner rest g p r hg]
      rw [countEntries_cons, countEntries_cons]
      rw [ih hnd'.2]
      have hhe : hasEntry ((g', inner) :: rest) g p = hasEntry rest g p := by
        simp [hasEntry, List.any_cons, hg]
      rw [hhe]
      omega


lemma insertInner_any_key (inner : List (String × ProviderResult))
    (p q : String) (r : ProviderResult)
    (h1 : inner.any (fun kv => kv.1 = q) = false) (h2 : q ≠ p) :
    (insertInner inner p r).any (fun kv => kv.1 = q) = false := by
  unfold insertInner
  by_cases hc : inner.any (fun kv => kv.1 = p)
  · rw [if_pos hc, List.any_eq_false]
    intro kv hkv
    simp only [List.mem_map] at hkv
    obtain ⟨kv0, hkv0, heq⟩ := hkv
    have h1' := (List.any_eq_false.mp h1) kv0 hkv0
    by_cases hk : kv0.1 = p
    · rw [if_pos hk] at heq
      rw [← heq]
      simp [Ne.symm h2]
    · rw [if_neg hk] at heq
      rw [← heq]
      exact h1'
  · rw [if_neg hc, List.any_eq_false]
    intro kv hkv
    rcases List.mem_append.mp hkv with h | h
    · exact (List.any_eq_false.mp h1) kv h
    · rw [List.mem_singleton.mp h]
      simp [Ne.symm h2]

lemma hasEntry_insertResult_false (res : Results) (g p q1 q2 : String)
    (r : ProviderResult) (h1 : hasEntry res q1 q2 = false)
    (h2 : ¬(q1 = g ∧ q2 = p)) :
    hasEntry (insertResult res g p r) q1 q2 = false := by
  unfold insertResult
  by_cases hc : res.any (fun kv => kv.1 = g)
  · rw [if_pos hc]
    rw [hasEntry, List.any_eq_false]
    intro kv hkv
    simp only [List.mem_map] at hkv
    obtain ⟨kv0, hkv0, heq⟩ := hkv
    have h1' := (List.any_eq_false.mp h1) kv0 hkv0
    by_cases hk : kv0.1 = g
    · rw [if_pos hk] at heq
      rw [← heq]
      by_cases hgq : g = q1
      · have hq2p : q2 ≠ p := fun hq => h2 ⟨hgq.symm, hq⟩
        have hinner : kv0.2.any (fun kv2 => kv2.1 = q2) = false := by
          cases hval : kv0.2.any (fun kv2 => kv2.1 = q2) with
          | false => rfl
          | true =>
            exfalso
            apply h1'
            rw [hval, hk, hgq]
            simp
        have hkey := insertInner_any_key kv0.2 p q2 r hinner hq2p
        simp [hkey]
      · simp [hgq]
    · rw [if_neg hk] at heq
      rw [← heq]
      exact h1'
  · rw [if_neg hc]
    rw [hasEntry, List.any_eq_false]
    intro kv hkv
    rcases List.mem_append.mp hkv with h | h
    · exact (List.any_eq_false.mp h1) kv h
    · rw [List.mem_singleton.mp h]
      by_cases hgq : g = q1
      · have hq2p : q2 ≠ p := fun hq => h2 ⟨hgq.symm, hq⟩
        simp [hgq, Ne.symm hq2p]
      · simp [hgq]

lemma insertResult_keys (res : Results) (g p : String) (r : ProviderResult) :
    (insertResult res g p r).map Prod.fst =
      if res.any (fun kv => kv.1 = g) then res.map Prod.fst
      else res.map Prod.fst ++ [g] := by
  unfold insertResult
  by_cases hc : res.any (fun kv => kv.1 = g)
  · rw [if_pos hc, if_pos hc, List.map_map]
    apply List.map_congr_left
    intro kv _
    by_cases hk : kv.1 = g <;> simp [hk]
  · rw [if_neg hc, if_neg hc]
    simp

lemma organize_foldl_count (reqName : String) (now : Nat) :
    ∀ (cells : List ((String × String) × TaskCell)) (acc : Results),
      (acc.map Prod.fst).Nodup →
      (cells.map Prod.fst).Nodup →
      (∀ c ∈ cells, hasEntry acc c.1.1 c.1.2 = false) →
      countEntries
        (cells.foldl
          (fun a e =>
            insertResult a e.1.1 e.1.2 (cellToResult e.1.2 reqName now e.2))
          acc) = countEntries acc + cells.length := by
  intro cells
  induction cells with
  | nil =>
    intro acc _ _ _
    simp
  | cons c cs ih =>
    intro acc hacc hcells hfresh
    rw [List.map_cons, List.nodup_cons] at hcells
    rw [List.foldl_cons]
    have hcnt :
        countEntries
            (insertResult acc c.1.1 c.1.2 (cellToResult c.1.2 reqName now c.2)) =
          countEntries acc + 1 := by
      rw [countEntries_insertResult acc c.1.1 c.1.2 _ hacc]
      rw [hfresh c (List.mem_cons_self c cs)]
      simp
    have hkeys :
        ((insertResult acc c.1.1 c.1.2
            (cellToResult c.1.2 reqName now c.2)).map Prod.fst).Nodup := by
      rw [insertResult_keys]
      by_cases h : acc.any (fun kv => kv.1 = c.1.1)
      · rw [if_pos h]
        exact hacc
      · rw [if_neg h]
        rw [List.nodup_append]
        refine ⟨hacc, List.nodup_singleton _, ?_⟩
        intro a ha hb
        rw [List.mem_singleton] at hb
        subst hb
        rw [List.mem_map] at ha
        obtain ⟨kv, hkv, heq⟩ := ha
        have hfalse := (List.any_eq_false.mp (Bool.not_eq_true _ ▸ h)) kv hkv
        rw [heq] at hfalse
        simp at hfalse
    have hfresh' :
        ∀ c2 ∈ cs,
          hasEntry
              (insertResult acc c.1.1 c.1.2
                (cellToResult c.1.2 reqName now c.2)) c2.1.1 c2.1.2 = false := by
      intro c2 hc2
      apply hasEntry_insertResult_false
      · exact hfresh c2 (List.mem_cons_of_mem c hc2)
      · intro hpair
        have hp1 : c2.1 = c.1 := Prod.ext hpair.1 hpair.2
        have hmem : c.1 ∈ cs.map Prod.fst := by
          rw [← hp1]
          exact List.mem_map_of_mem Prod.fst hc2
        exact hcells.1 hmem
    rw [ih _ hkeys hcells.2 hfresh']
    rw [hcnt]
    simp only [List.length_cons]
    omega



lemma taskMetadata_fst_mem (groups : List String)
    (pig : String → List String) (x : String × String)
    (hx : x ∈ taskMetadata groups pig) : x.1 ∈ groups := by
  unfold taskMetadata at hx
  rw [List.mem_flatMap] at hx
  obtain ⟨g, hg, hx⟩ := hx
  rw [List.mem_map] at hx
  obtain ⟨p, _, heq⟩ := hx
  rw [← heq]
  exact hg

lemma taskMetadata_nodup (groups : List String)
    (pig : String → List String) (hg : groups.Nodup)
    (hp : ∀ g ∈ groups, (pig g).Nodup) :
    (taskMetadata groups pig).Nodup := by
  induction groups with
  | nil => simp [taskMetadata]
  | cons g gs ih =>
    have hg' := List.nodup_cons.mp hg
    rw [taskMetadata, List.flatMap_cons, List.nodup_append]
    refine ⟨?_, ?_, ?_⟩
    · apply List.Nodup.map
      · intro a b hab
        simpa using hab
      · exact hp g (List.mem_cons_self g gs)
    · exact ih hg'.2 (fun g2 h => hp g2 (List.mem_cons_of_mem g h))
    · intro x hx1 hx2
      have h1 : x.1 = g := by
        rw [List.mem_map] at hx1
        obtain ⟨p, _, heq⟩ := hx1
        rw [← heq]
      have h2 : x.1 ∈ gs := taskMetadata_fst_mem gs pig x hx2
      rw [h1] at h2
      exact hg'.1 h2

lemma organize_zip_count (reqName : String) (now : Nat)
    (metadata : List (String × String)) (cells : List TaskCell)
    (hnd : metadata.Nodup) (hlen : cells.length = metadata.length) :
    countEntries (organizeResults reqName now (metadata.zip cells)) =
      metadata.length := by
  unfold organizeResults
  have hfst : (metadata.zip cells).map Prod.fst = metadata :=
    List.map_fst_zip metadata cells (le_of_eq hlen.symm)
  rw [organize_foldl_count reqName now (metadata.zip cells) [] (by simp)
    (by rw [hfst]; exact hnd)
    (by intro c _; simp [hasEntry])]
  simp [countEntries, List.length_zip, hlen]

lemma check_results_def (env : CheckEnv) (checkId : String) :
    (check_name_availability env checkId).results =
      organizeResults env.reqName env.now
        ((taskMetadata env.groups env.providersInGroup).zip
          (if env.overallTimedOut then
            List.replicate
              (taskMetadata env.groups env.providersInGroup).length
              (TaskCell.exn overallTimeoutMsg)
          else
            (taskMetadata env.groups env.providersInGroup).map
              (fun gp =>
                TaskCell.res
                  (check_single_provider_wrapper gp.2 env.reqName
                    (env.taskEnv gp.1 gp.2)).result))) := rfl

/-- C4. For every request whose requested provider groups are distinct and
whose groups each resolve to a duplicate-free provider list, the returned
`NameCheck` holds exactly one `ProviderResult` entry per resolved
`(group, provider)` pair — whether the batch timed out or not, and whatever
each task's outcome was, no provider is dropped. -/
theorem no_provider_dropped (env : CheckEnv) (checkId : String)
    (hg : env.groups.Nodup)
    (hp : ∀ g ∈ env.groups, (env.providersInGroup g).Nodup) :
    countEntries (check_name_availability env checkId).results =
      (taskMetadata env.groups env.providersInGroup).length := by
  rw [check_results_def]
  apply organize_zip_count
  · exact taskMetadata_nodup env.groups env.providersInGroup hg hp
  · by_cases h : env.overallTimedOut <;> simp [h]

/-- Witness for C4 at the concrete two-provider environment (whose batch
even timed out). -/
theorem no_provider_dropped_witness :
    countEntries (check_name_availability envTimeout "check-4").results =
      (taskMetadata envTimeout.groups envTimeout.providersInGroup).length :=
  no_provider_dropped envTimeout "check-4" (by decide)
    (by intro g hg; fin_cases hg; decide)

end Dashboard
